import Mathlib

/-!
Verification of the FoodHub server's commission/settlement bookkeeping.

Shallow embedding of the Hono server in `supabase/functions/server/index.tsx`
(the file with the `/make-server-8966d869/...` routes) and of
`src/utils/paystack.ts`.  Monetary amounts are JS numbers; the claims under
study are about exact arithmetic, so amounts are modelled as rationals (ℚ).
Timestamps (`createdAt`, `lastUpdated`, `updatedAt`, `paidAt`) and the
per-vendor statistics updated by `updateVendorStats` are not observed by any
claim and are omitted from the state.  Supabase auth checks and the Paystack
REST calls are external effects; their outcomes enter the model as boolean
parameters of the corresponding handler function.
-/

namespace FoodHub

/-- JavaScript `Math.round`: round half toward positive infinity,
`Math.round(x) = floor(x + 1/2)`.  Written with the executable `Rat.floor`. -/
def jsRound (q : ℚ) : ℤ := (q + 1/2).floor

/-- `const COMMISSION_RATE = 0.04` — 4% commission on all orders. -/
def COMMISSION_RATE : ℚ := 4/100

/-- `calculateCommission(orderAmount) = Math.round(orderAmount * COMMISSION_RATE)`. -/
def calculateCommission (orderAmount : ℚ) : ℤ := jsRound (orderAmount * COMMISSION_RATE)

/-- The `platform_earnings:<PLATFORM_OWNER_ID>` record.  `monthlyEarnings` is a
JS object keyed by `YYYY-MM` month strings, modelled as an association list in
insertion order. -/
structure PlatformEarnings where
  totalEarnings : ℚ
  totalOrders : ℕ
  monthlyEarnings : List (String × ℚ)
  totalWithdrawn : ℚ
deriving DecidableEq

/-- The default earnings record used when the key-value store has none:
`{ totalEarnings: 0, totalOrders: 0, monthlyEarnings: {} }` (a missing
`totalWithdrawn` field reads as 0 through `|| 0`). -/
def emptyEarnings : PlatformEarnings :=
  { totalEarnings := 0, totalOrders := 0, monthlyEarnings := [], totalWithdrawn := 0 }

/-- `monthlyEarnings?.[month] || 0` — look a month up in the object, 0 when absent. -/
def lookupMonth : List (String × ℚ) → String → ℚ
  | [], _ => 0
  | (k0, v0) :: rest, k => if k0 = k then v0 else lookupMonth rest k

/-- JS object spread `{...m, [month]: v}`: replace the value of an existing key
in place, otherwise append the new key. -/
def setMonth : List (String × ℚ) → String → ℚ → List (String × ℚ)
  | [], k, v => [(k, v)]
  | (k0, v0) :: rest, k, v =>
      if k0 = k then (k0, v) :: rest else (k0, v0) :: setMonth rest k v

/-- Sum of all monthly values in a `monthlyEarnings` object. -/
def monthlySum (l : List (String × ℚ)) : ℚ := (l.map Prod.snd).sum

/-- The earnings update inside `trackCommission`: add the commission to
`totalEarnings`, count the order, and add the commission to the current
month's entry of `monthlyEarnings`. -/
def trackCommissionUpd (e : PlatformEarnings) (month : String) (c : ℚ) : PlatformEarnings :=
  { e with
    totalEarnings := e.totalEarnings + c
    totalOrders := e.totalOrders + 1
    monthlyEarnings := setMonth e.monthlyEarnings month (lookupMonth e.monthlyEarnings month + c) }

/-- A `wallet:<vendorId>` record. -/
structure Wallet where
  vendorId : String
  walletBalance : ℚ
  totalEarnings : ℚ
  pendingBalance : ℚ
  totalWithdrawn : ℚ
deriving DecidableEq

/-- The fresh wallet used when the store has none (payment verification and
`GET /vendor/wallet` both default to all-zero fields). -/
def emptyWallet (vid : String) : Wallet :=
  { vendorId := vid, walletBalance := 0, totalEarnings := 0
    pendingBalance := 0, totalWithdrawn := 0 }

/-- The wallet credit in `payment/verify`:
`wallet.walletBalance += vendorAmount; wallet.totalEarnings += vendorAmount`. -/
def creditWallet (w : Wallet) (vendorAmount : ℚ) : Wallet :=
  { w with
    walletBalance := w.walletBalance + vendorAmount
    totalEarnings := w.totalEarnings + vendorAmount }

/-- The wallet debit in `vendor/withdraw`:
`wallet.walletBalance -= amount; wallet.totalWithdrawn = (wallet.totalWithdrawn || 0) + amount`. -/
def debitWallet (w : Wallet) (amount : ℚ) : Wallet :=
  { w with
    walletBalance := w.walletBalance - amount
    totalWithdrawn := w.totalWithdrawn + amount }

/-- An `order:<orderId>` record (the fields the handlers read or write). -/
structure Order where
  vendorId : String
  customerId : Option String
  amount : ℚ
  status : String
  paymentStatus : Option String
  paymentReference : Option String
deriving DecidableEq

/-- A `transaction:<id>` record written by `payment/verify`. -/
structure TransactionRecord where
  orderId : String
  vendorId : String
  customerId : String
  totalAmount : ℚ
  commissionAmount : ℤ
  vendorAmount : ℚ
  paymentReference : String
deriving DecidableEq

/-- A `withdrawal:<id>` record written by `vendor/withdraw`. -/
structure WithdrawalRecord where
  vendorId : String
  amount : ℚ
  status : String
deriving DecidableEq

/-- An `admin_withdrawal:<id>` record written by `admin/withdraw`. -/
structure AdminWithdrawalRecord where
  amount : ℚ
  status : String
deriving DecidableEq

/-- The slice of the key-value store the settlement claims observe.  Orders
and wallets are keyed maps; the single `platform_earnings` record is optional
(absent until first written); transaction/withdrawal records are kept as
lists (their ids are opaque timestamps). -/
structure ServerState where
  orders : String → Option Order
  wallets : String → Option Wallet
  transactions : List TransactionRecord
  withdrawals : List WithdrawalRecord
  adminWithdrawals : List AdminWithdrawalRecord
  earnings : Option PlatformEarnings

/-- Point update of a keyed map (one `kv.set`). -/
def upd {α : Type} (m : String → Option α) (k : String) (v : α) : String → Option α :=
  fun k2 => if k2 = k then some v else m k2

/-- A state with an empty key-value store. -/
def emptyState : ServerState :=
  { orders := fun _ => none, wallets := fun _ => none, transactions := []
    withdrawals := [], adminWithdrawals := [], earnings := none }

/-- `POST /orders`: store the order with `status: 'pending'` and run
`trackCommission` on the order amount.  (`updateVendorStats` is not modelled.) -/
def createOrder (st : ServerState) (orderId vendorId : String) (amount : ℚ)
    (month : String) : ServerState :=
  let commissionAmount := calculateCommission amount
  let order : Order :=
    { vendorId := vendorId, customerId := none, amount := amount
      status := "pending", paymentStatus := none, paymentReference := none }
  { st with
    orders := upd st.orders orderId order
    earnings := some (trackCommissionUpd (st.earnings.getD emptyEarnings) month
      (commissionAmount : ℚ)) }

/-- `validateWithdrawalAmount`'s result shape. -/
structure ValidationResult where
  valid : Bool
  error : Option String
deriving DecidableEq

/-- `validateWithdrawalAmount` from `src/utils/paystack.ts`. -/
def validateWithdrawalAmount (amount : ℚ) : ValidationResult :=
  if amount < 1000 then { valid := false, error := some "Minimum withdrawal is ₦1,000" }
  else if amount > 5000000 then
    { valid := false, error := some "Maximum withdrawal is ₦5,000,000" }
  else { valid := true, error := none }

/-- Outcome of the read/guard phase of `payment/verify` (after the Paystack
verification succeeded): the order lookup and the double-processing guard
`if (order.paymentStatus === 'completed')`. -/
inductive VerifyCheck where
  | orderNotFound
  | alreadyProcessed
  | proceed (order : Order)
deriving DecidableEq

/-- The read/guard phase of `payment/verify`: `kv.get` the order and apply the
double-processing guard. -/
def verifyRead (st : ServerState) (orderId : String) : VerifyCheck :=
  match st.orders orderId with
  | none => .orderNotFound
  | some order =>
      if order.paymentStatus = some "completed" then .alreadyProcessed
      else .proceed order

/-- `const totalAmount = transaction.amount / 100` — the verified payment
total in naira, from the Paystack amount in kobo. -/
def totalAmountOf (paidKobo : ℚ) : ℚ := paidKobo / 100

/-- `const commissionAmount = Math.round(totalAmount * COMMISSION_RATE)`. -/
def commissionOf (paidKobo : ℚ) : ℤ := jsRound (totalAmountOf paidKobo * COMMISSION_RATE)

/-- `const vendorAmount = totalAmount - commissionAmount`. -/
def vendorAmountOf (paidKobo : ℚ) : ℚ :=
  totalAmountOf paidKobo - (commissionOf paidKobo : ℚ)

/-- The write phase of `payment/verify`, applied to the order snapshot read in
the guard phase: compute the commission split, store the transaction record,
mark the order confirmed/completed, credit the vendor wallet, and run
`trackCommission`.  `paidKobo` is `transaction.amount` as reported by
Paystack (in kobo); `totalAmount = transaction.amount / 100`. -/
def verifyWrite (st : ServerState) (orderId : String) (order : Order)
    (paidKobo : ℚ) (reference month : String) : ServerState :=
  let totalAmount := totalAmountOf paidKobo
  let commissionAmount : ℤ := commissionOf paidKobo
  let vendorAmount : ℚ := vendorAmountOf paidKobo
  let txn : TransactionRecord :=
    { orderId := orderId, vendorId := order.vendorId
      customerId := order.customerId.getD "guest"
      totalAmount := totalAmount, commissionAmount := commissionAmount
      vendorAmount := vendorAmount, paymentReference := reference }
  let order2 : Order :=
    { order with status := "confirmed", paymentStatus := some "completed"
                 paymentReference := some reference }
  let wallet := (st.wallets order.vendorId).getD (emptyWallet order.vendorId)
  { st with
    transactions := txn :: st.transactions
    orders := upd st.orders orderId order2
    wallets := upd st.wallets order.vendorId (creditWallet wallet vendorAmount)
    earnings := some (trackCommissionUpd (st.earnings.getD emptyEarnings) month
      (commissionAmount : ℚ)) }

/-- Response of `payment/verify` as observed by the claims. -/
inductive VerifyResult where
  | orderNotFound
  | alreadyProcessed
  | verified
deriving DecidableEq

/-- `POST /payment/verify`, run to completion without interleaving: the guard
phase followed by the write phase. -/
def verifyPayment (st : ServerState) (orderId : String) (paidKobo : ℚ)
    (reference month : String) : ServerState × VerifyResult :=
  match verifyRead st orderId with
  | .orderNotFound => (st, .orderNotFound)
  | .alreadyProcessed => (st, .alreadyProcessed)
  | .proceed order => (verifyWrite st orderId order paidKobo reference month, .verified)

/-- Response of `PUT /orders/:orderId/status`. -/
inductive UpdateStatusOutcome where
  | unauthorized
  | orderNotFound
  | ok
deriving DecidableEq

/-- `PUT /orders/:orderId/status`: overwrite the stored order's `status` with
the request body's `status`, whatever string it is.  There is no transition
validation.  (`updateVendorStats` on `delivered` is not modelled.) -/
def updateOrderStatus (st : ServerState) (authOk : Bool) (orderId status : String) :
    ServerState × UpdateStatusOutcome :=
  if !authOk then (st, .unauthorized)
  else
    match st.orders orderId with
    | none => (st, .orderNotFound)
    | some order =>
        ({ st with orders := upd st.orders orderId { order with status := status } }, .ok)

/-- Response of `POST /vendor/withdraw`. -/
inductive WithdrawOutcome where
  | unauthorized
  | missingFields
  | invalidPassword
  | insufficientBalance
  | recipientFailed
  | transferFailed
  | succeeded
deriving DecidableEq

/-- `POST /vendor/withdraw`.  External effects as booleans: `authOk` is the
access-token check, `hasPassword`/`hasBank`/`hasAccount` the truthiness of the
corresponding request fields (`!amount` is also true when `amount` is 0),
`passwordOk` the `signInWithPassword` re-check, `recipientOk` and `transferOk`
the two Paystack calls, and `transferStatus` is `transferData.data.status`.
The wallet is debited and the withdrawal record stored only after every check
and both Paystack calls succeed. -/
def vendorWithdraw (st : ServerState) (vendorId : String) (amount : ℚ)
    (authOk hasPassword hasBank hasAccount passwordOk recipientOk transferOk : Bool)
    (transferStatus : String) : ServerState × WithdrawOutcome :=
  if !authOk then (st, .unauthorized)
  else if amount = 0 || !hasPassword || !hasBank || !hasAccount then (st, .missingFields)
  else if !passwordOk then (st, .invalidPassword)
  else
    match st.wallets vendorId with
    | none => (st, .insufficientBalance)
    | some wallet =>
        if wallet.walletBalance < amount then (st, .insufficientBalance)
        else if !recipientOk then (st, .recipientFailed)
        else if !transferOk then (st, .transferFailed)
        else
          let wd : WithdrawalRecord :=
            { vendorId := vendorId, amount := amount, status := transferStatus }
          ({ st with
             wallets := upd st.wallets vendorId (debitWallet wallet amount)
             withdrawals := wd :: st.withdrawals }, .succeeded)

/-- The platform-earnings update in `POST /admin/withdraw`:
`platformEarnings.totalWithdrawn = (platformEarnings.totalWithdrawn || 0) + amount`,
every other field left as it was. -/
def adminWithdrawUpd (e : PlatformEarnings) (amount : ℚ) : PlatformEarnings :=
  { e with totalWithdrawn := e.totalWithdrawn + amount }

/-- Response of `POST /admin/withdraw`. -/
inductive AdminWithdrawOutcome where
  | unauthorized
  | missingFields
  | invalidPassword
  | insufficientBalance
  | succeeded
deriving DecidableEq

/-- `POST /admin/withdraw`: after the admin and password checks, withdraw
`amount` from the available commission balance
`totalEarnings - totalWithdrawn`, recording it in `totalWithdrawn` only. -/
def adminWithdraw (st : ServerState) (amount : ℚ)
    (isAdmin hasPassword passwordOk : Bool) : ServerState × AdminWithdrawOutcome :=
  if !isAdmin then (st, .unauthorized)
  else if amount = 0 || !hasPassword then (st, .missingFields)
  else if !passwordOk then (st, .invalidPassword)
  else
    let e := st.earnings.getD emptyEarnings
    if e.totalEarnings - e.totalWithdrawn < amount then (st, .insufficientBalance)
    else
      let wd : AdminWithdrawalRecord := { amount := amount, status := "completed" }
      ({ st with
         adminWithdrawals := wd :: st.adminWithdrawals
         earnings := some (adminWithdrawUpd e amount) }, .succeeded)

/-- Vendor wallets reachable through the server's operations: the all-zero
fresh wallet, the `payment/verify` credit, and the `vendor/withdraw` debit
(which the handler performs only when the amount is truthy and the balance
check `wallet.walletBalance < amount` fails). -/
inductive WalletReach : Wallet → Prop where
  | init (vendorId : String) : WalletReach (emptyWallet vendorId)
  | credit (w : Wallet) (vendorAmount : ℚ) :
      WalletReach w → WalletReach (creditWallet w vendorAmount)
  | withdraw (w : Wallet) (amount : ℚ) :
      WalletReach w → amount ≠ 0 → ¬ w.walletBalance < amount →
      WalletReach (debitWallet w amount)

/-- Platform-earnings records reachable through the server's operations: the
empty record, the `trackCommission` update (run from order creation and from
payment verification), and the `admin/withdraw` update (which the handler
performs only when the amount is truthy and the available-balance check
passes). -/
inductive EarningsReach : PlatformEarnings → Prop where
  | init : EarningsReach emptyEarnings
  | track (e : PlatformEarnings) (month : String) (c : ℚ) :
      EarningsReach e → EarningsReach (trackCommissionUpd e month c)
  | adminWd (e : PlatformEarnings) (amount : ℚ) :
      EarningsReach e → amount ≠ 0 → ¬ e.totalEarnings - e.totalWithdrawn < amount →
      EarningsReach (adminWithdrawUpd e amount)

/-- A sample stored order used by concrete witnesses. -/
def sampleOrder : Order :=
  { vendorId := "vendor-1", customerId := none, amount := 1000
    status := "delivered", paymentStatus := none, paymentReference := none }

/-- A server state holding only `sampleOrder` under `order:ORD-1`. -/
def sampleState : ServerState :=
  { emptyState with orders := upd emptyState.orders "ORD-1" sampleOrder }

/-- A wallet with 5,000 naira available, used by the C5 witness. -/
def walletC5 : Wallet :=
  { vendorId := "vendor-1", walletBalance := 5000, totalEarnings := 5000
    pendingBalance := 0, totalWithdrawn := 0 }

/-- A server state holding only `walletC5` under `wallet:vendor-1`. -/
def stC5 : ServerState :=
  { emptyState with wallets := upd emptyState.wallets "vendor-1" walletC5 }

/-- The order used by the C2 interleaving: payment initialized, not yet
completed. -/
def orderC2 : Order :=
  { vendorId := "vendor-1", customerId := none, amount := 1000
    status := "pending", paymentStatus := some "initialized"
    paymentReference := some "PSREF-2" }

/-- A server state holding only `orderC2` under `order:ORD-2`. -/
def stC2 : ServerState :=
  { emptyState with orders := upd emptyState.orders "ORD-2" orderC2 }

/-- `jsRound` agrees with the floor characterisation of rounding half up. -/
theorem jsRound_eq (q : ℚ) : jsRound q = ⌊q + 1/2⌋ := by
  rw [jsRound, Rat.floor_def', Rat.floor_def]

/-- Updating a month of a `monthlyEarnings` object changes the total of all
months by the difference at that month. -/
theorem monthlySum_setMonth (l : List (String × ℚ)) (k : String) (v : ℚ) :
    monthlySum (setMonth l k v) = monthlySum l - lookupMonth l k + v := by
  induction l with
  | nil => simp [setMonth, monthlySum, lookupMonth]
  | cons hd tl ih =>
      obtain ⟨k0, v0⟩ := hd
      by_cases h : k0 = k
      · simp [setMonth, monthlySum, lookupMonth, h]
        ring
      · have ih2 : (List.map Prod.snd (setMonth tl k v)).sum
            = (List.map Prod.snd tl).sum - lookupMonth tl k + v := ih
        simp [setMonth, monthlySum, lookupMonth, h, ih2]
        ring

/-- Reading back the month just written in a `monthlyEarnings` object. -/
theorem lookupMonth_setMonth (l : List (String × ℚ)) (k : String) (v : ℚ) :
    lookupMonth (setMonth l k v) k = v := by
  induction l with
  | nil => simp [setMonth, lookupMonth]
  | cons hd tl ih =>
      obtain ⟨k0, v0⟩ := hd
      by_cases h : k0 = k
      · simp [setMonth, lookupMonth, h]
      · simp [setMonth, lookupMonth, h, ih]

/-- Claim C8: `validateWithdrawalAmount` returns valid exactly when the amount
is at least 1,000 and at most 5,000,000; below 1,000 it returns invalid with
the error `Minimum withdrawal is ₦1,000`, above 5,000,000 invalid with the
error `Maximum withdrawal is ₦5,000,000`. -/
theorem C8_validateWithdrawalAmount_bounds (amount : ℚ) :
    ((validateWithdrawalAmount amount).valid = true ↔
      1000 ≤ amount ∧ amount ≤ 5000000) ∧
    (amount < 1000 → validateWithdrawalAmount amount
        = { valid := false, error := some "Minimum withdrawal is ₦1,000" }) ∧
    (5000000 < amount → validateWithdrawalAmount amount
        = { valid := false, error := some "Maximum withdrawal is ₦5,000,000" }) := by
  refine ⟨?_, ?_, ?_⟩
  · unfold validateWithdrawalAmount
    split_ifs with h1 h2
    · simp only [Bool.false_eq_true, false_iff]
      rintro ⟨ha, -⟩
      linarith
    · simp only [Bool.false_eq_true, false_iff]
      rintro ⟨-, hb⟩
      linarith
    · simp only [true_iff]
      exact ⟨le_of_not_lt h1, le_of_not_lt h2⟩
  · intro h
    unfold validateWithdrawalAmount
    rw [if_pos h]
  · intro h
    unfold validateWithdrawalAmount
    rw [if_neg (by linarith), if_pos h]

/-- Witness for C8 at the concrete amounts 500, 2000 and 6,000,000. -/
theorem C8_validateWithdrawalAmount_bounds_witness :
    (validateWithdrawalAmount 500
        = { valid := false, error := some "Minimum withdrawal is ₦1,000" }) ∧
    (validateWithdrawalAmount 6000000
        = { valid := false, error := some "Maximum withdrawal is ₦5,000,000" }) ∧
    (validateWithdrawalAmount 2000).valid = true :=
  ⟨(C8_validateWithdrawalAmount_bounds 500).2.1 (by norm_num),
   (C8_validateWithdrawalAmount_bounds 6000000).2.2 (by norm_num),
   ((C8_validateWithdrawalAmount_bounds 2000).1).2 (by norm_num)⟩

/-- Claim C7: every vendor wallet reachable through the server's operations
(fresh all-zero wallet, payment-verification credit, withdrawal debit)
satisfies `walletBalance = totalEarnings - totalWithdrawn`. -/
theorem C7_wallet_ledger_invariant (w : Wallet) (h : WalletReach w) :
    w.walletBalance = w.totalEarnings - w.totalWithdrawn := by
  induction h with
  | init vid => simp [emptyWallet]
  | credit w v _ ih =>
      simp only [creditWallet]
      linarith
  | withdraw w a _ _ _ ih =>
      simp only [debitWallet]
      linarith

/-- Witness for C7: a wallet credited 960 and then debited 500 is reachable
and satisfies the ledger invariant. -/
theorem C7_wallet_ledger_invariant_witness :
    (debitWallet (creditWallet (emptyWallet "vendor-1") 960) 500).walletBalance
      = (debitWallet (creditWallet (emptyWallet "vendor-1") 960) 500).totalEarnings
        - (debitWallet (creditWallet (emptyWallet "vendor-1") 960) 500).totalWithdrawn :=
  C7_wallet_ledger_invariant _
    (WalletReach.withdraw _ 500
      (WalletReach.credit _ 960 (WalletReach.init "vendor-1"))
      (by norm_num)
      (by norm_num [creditWallet, emptyWallet]))

/-- Claim C9: every platform-earnings record reachable through the server's
operations satisfies `totalEarnings = sum of the monthlyEarnings values`, and
the admin-withdrawal update changes only `totalWithdrawn`, never
`totalEarnings` or `monthlyEarnings`. -/
theorem C9_platform_earnings_invariant :
    (∀ e : PlatformEarnings, EarningsReach e →
        e.totalEarnings = monthlySum e.monthlyEarnings) ∧
    (∀ (e : PlatformEarnings) (amount : ℚ),
        (adminWithdrawUpd e amount).totalEarnings = e.totalEarnings ∧
        (adminWithdrawUpd e amount).monthlyEarnings = e.monthlyEarnings) := by
  constructor
  · intro e h
    induction h with
    | init => simp [emptyEarnings, monthlySum]
    | track e month c _ ih =>
        simp only [trackCommissionUpd, monthlySum_setMonth, ih]
        ring
    | adminWd e a _ _ _ ih => simpa [adminWithdrawUpd] using ih
  · intro e a
    exact ⟨rfl, rfl⟩

/-- Witness for C9: the record after tracking a 40-naira commission for
2025-01 and an admin withdrawal of 25 is reachable and satisfies the
invariant. -/
theorem C9_platform_earnings_invariant_witness :
    (adminWithdrawUpd (trackCommissionUpd emptyEarnings "2025-01" 40) 25).totalEarnings
      = monthlySum
          (adminWithdrawUpd (trackCommissionUpd emptyEarnings "2025-01" 40) 25).monthlyEarnings :=
  C9_platform_earnings_invariant.1 _
    (EarningsReach.adminWd _ 25
      (EarningsReach.track _ "2025-01" 40 EarningsReach.init)
      (by norm_num)
      (by norm_num [trackCommissionUpd, emptyEarnings]))

/-- Claim C4: the order-status update endpoint performs no transition
validation: for every existing order and every status string supplied by an
authenticated caller, the update succeeds and stores the supplied status
verbatim. -/
theorem C4_status_update_verbatim (st : ServerState) (orderId status : String)
    (order : Order) (h : st.orders orderId = some order) :
    (updateOrderStatus st true orderId status).2 = .ok ∧
    (updateOrderStatus st true orderId status).1.orders orderId
      = some { order with status := status } := by
  simp [updateOrderStatus, h, upd]

/-- Witness for C4: a status string far outside the enum (also a backwards
transition away from `delivered`) is stored verbatim. -/
theorem C4_status_update_verbatim_witness :
    (updateOrderStatus sampleState true "ORD-1" "not-a-real-status").2
        = UpdateStatusOutcome.ok ∧
    (updateOrderStatus sampleState true "ORD-1" "not-a-real-status").1.orders "ORD-1"
        = some { sampleOrder with status := "not-a-real-status" } :=
  C4_status_update_verbatim sampleState "ORD-1" "not-a-real-status" sampleOrder
    (by simp [sampleState, emptyState, upd])

/-- Claim C1: when payment verification succeeds for an order whose
`paymentStatus` is not yet `completed`, the payment total is split into a
commission `Math.round(total * 4%)` and a vendor credit `total - commission`
(so commission + vendor credit = total exactly), and the vendor wallet's
`walletBalance` and `totalEarnings` each increase by exactly the vendor
credit. -/
theorem C1_payment_split (st : ServerState) (orderId : String) (order : Order)
    (paidKobo : ℚ) (reference month : String)
    (horder : st.orders orderId = some order)
    (hnotdone : order.paymentStatus ≠ some "completed") :
    (verifyPayment st orderId paidKobo reference month).2 = .verified ∧
    (commissionOf paidKobo : ℚ) + vendorAmountOf paidKobo = totalAmountOf paidKobo ∧
    (verifyPayment st orderId paidKobo reference month).1.wallets order.vendorId
      = some (creditWallet
          ((st.wallets order.vendorId).getD (emptyWallet order.vendorId))
          (vendorAmountOf paidKobo)) ∧
    (creditWallet ((st.wallets order.vendorId).getD (emptyWallet order.vendorId))
        (vendorAmountOf paidKobo)).walletBalance
      = ((st.wallets order.vendorId).getD (emptyWallet order.vendorId)).walletBalance
        + vendorAmountOf paidKobo ∧
    (creditWallet ((st.wallets order.vendorId).getD (emptyWallet order.vendorId))
        (vendorAmountOf paidKobo)).totalEarnings
      = ((st.wallets order.vendorId).getD (emptyWallet order.vendorId)).totalEarnings
        + vendorAmountOf paidKobo := by
  have hr : verifyRead st orderId = VerifyCheck.proceed order := by
    simp [verifyRead, horder, hnotdone]
  refine ⟨?_, ?_, ?_, rfl, rfl⟩
  · simp [verifyPayment, hr]
  · rw [vendorAmountOf]
    ring
  · simp [verifyPayment, hr, verifyWrite, upd]

/-- Witness for C1: verifying a 100,000-kobo payment against the sample
stored order. -/
theorem C1_payment_split_witness :
    (verifyPayment sampleState "ORD-1" 100000 "PSREF-1" "2025-01").2 = .verified ∧
    (commissionOf 100000 : ℚ) + vendorAmountOf 100000 = totalAmountOf 100000 ∧
    (verifyPayment sampleState "ORD-1" 100000 "PSREF-1" "2025-01").1.wallets
        sampleOrder.vendorId
      = some (creditWallet
          ((sampleState.wallets sampleOrder.vendorId).getD
            (emptyWallet sampleOrder.vendorId))
          (vendorAmountOf 100000)) ∧
    (creditWallet ((sampleState.wallets sampleOrder.vendorId).getD
          (emptyWallet sampleOrder.vendorId)) (vendorAmountOf 100000)).walletBalance
      = ((sampleState.wallets sampleOrder.vendorId).getD
          (emptyWallet sampleOrder.vendorId)).walletBalance + vendorAmountOf 100000 ∧
    (creditWallet ((sampleState.wallets sampleOrder.vendorId).getD
          (emptyWallet sampleOrder.vendorId)) (vendorAmountOf 100000)).totalEarnings
      = ((sampleState.wallets sampleOrder.vendorId).getD
          (emptyWallet sampleOrder.vendorId)).totalEarnings + vendorAmountOf 100000 :=
  C1_payment_split sampleState "ORD-1" sampleOrder 100000 "PSREF-1" "2025-01"
    (by simp [sampleState, emptyState, upd]) (by simp [sampleOrder])

/-- Claim C6: every order created through `POST /orders` is stored with
status `pending`, and a first successful payment verification of that order
sets its status to `confirmed`. -/
theorem C6_pending_then_confirmed (st : ServerState) (orderId vendorId : String)
    (amount paidKobo : ℚ) (m1 reference m2 : String) :
    ((createOrder st orderId vendorId amount m1).orders orderId).map Order.status
        = some "pending" ∧
    (verifyPayment (createOrder st orderId vendorId amount m1) orderId paidKobo
        reference m2).2 = .verified ∧
    ((verifyPayment (createOrder st orderId vendorId amount m1) orderId paidKobo
        reference m2).1.orders orderId).map Order.status = some "confirmed" := by
  have hr : verifyRead (createOrder st orderId vendorId amount m1) orderId
      = VerifyCheck.proceed
        { vendorId := vendorId, customerId := none, amount := amount
          status := "pending", paymentStatus := none, paymentReference := none } := by
    simp [verifyRead, createOrder, upd]
  refine ⟨?_, ?_, ?_⟩
  · simp [createOrder, upd]
  · simp [verifyPayment, hr]
  · simp [verifyPayment, hr, verifyWrite, upd]

/-- Claim C5: the vendor withdrawal flow debits the wallet ledger only on
success: with a missing wallet or a balance below the amount it fails with
the insufficient-balance error and the state is unchanged; on success
`walletBalance` decreases and `totalWithdrawn` increases by exactly the
amount and a withdrawal record is stored. -/
theorem C5_withdraw_flow (st : ServerState) (vendorId : String) (amount : ℚ)
    (tStatus : String) (hamt : amount ≠ 0) :
    ((st.wallets vendorId = none ∨
        ∃ w : Wallet, st.wallets vendorId = some w ∧ w.walletBalance < amount) →
      vendorWithdraw st vendorId amount true true true true true true true tStatus
        = (st, .insufficientBalance)) ∧
    (∀ w : Wallet, st.wallets vendorId = some w → ¬ w.walletBalance < amount →
      (vendorWithdraw st vendorId amount true true true true true true true tStatus).2
          = .succeeded ∧
      (vendorWithdraw st vendorId amount true true true true true true true
          tStatus).1.wallets vendorId = some (debitWallet w amount) ∧
      (debitWallet w amount).walletBalance = w.walletBalance - amount ∧
      (debitWallet w amount).totalWithdrawn = w.totalWithdrawn + amount ∧
      (vendorWithdraw st vendorId amount true true true true true true true
          tStatus).1.withdrawals
        = { vendorId := vendorId, amount := amount, status := tStatus }
            :: st.withdrawals) := by
  constructor
  · rintro (hnone | ⟨w, hw, hlt⟩)
    · simp [vendorWithdraw, hamt, hnone]
    · simp [vendorWithdraw, hamt, hw, hlt]
  · intro w hw hge
    refine ⟨?_, ?_, rfl, rfl, ?_⟩
    · simp [vendorWithdraw, hamt, hw, hge]
    · simp [vendorWithdraw, hamt, hw, hge, upd]
    · simp [vendorWithdraw, hamt, hw, hge]

/-- Witness for C5: withdrawing 2,000 naira from a 5,000-naira wallet. -/
theorem C5_withdraw_flow_witness :
    (vendorWithdraw stC5 "vendor-1" 2000 true true true true true true true
        "pending").2 = .succeeded ∧
    (vendorWithdraw stC5 "vendor-1" 2000 true true true true true true true
        "pending").1.wallets "vendor-1" = some (debitWallet walletC5 2000) ∧
    (debitWallet walletC5 2000).walletBalance = walletC5.walletBalance - 2000 ∧
    (debitWallet walletC5 2000).totalWithdrawn = walletC5.totalWithdrawn + 2000 ∧
    (vendorWithdraw stC5 "vendor-1" 2000 true true true true true true true
        "pending").1.withdrawals
      = { vendorId := "vendor-1", amount := 2000, status := "pending" }
          :: stC5.withdrawals :=
  (C5_withdraw_flow stC5 "vendor-1" 2000 "pending" (by norm_num)).2 walletC5
    (by simp [stC5, emptyState, upd]) (by norm_num [walletC5])

/-- Counterexample for C3: creating a 1,000-naira order from the empty state
and then verifying its 100,000-kobo payment leaves the platform earnings at
80, not at the order's commission 40 — the increase is not the commission
amount. -/
theorem C3_counterexample :
    ((verifyPayment (createOrder emptyState "ORD-3" "vendor-1" 1000 "2025-01")
        "ORD-3" 100000 "PSREF-3" "2025-01").1.earnings.getD
        emptyEarnings).totalEarnings = 80 ∧
    (calculateCommission 1000 : ℚ) = 40 ∧
    ¬ ((verifyPayment (createOrder emptyState "ORD-3" "vendor-1" 1000 "2025-01")
        "ORD-3" 100000 "PSREF-3" "2025-01").1.earnings.getD
        emptyEarnings).totalEarnings
      = (emptyState.earnings.getD emptyEarnings).totalEarnings
        + (calculateCommission 1000 : ℚ) := by
  have hc0 : calculateCommission 1000 = 40 := by
    rw [calculateCommission, COMMISSION_RATE, jsRound_eq]
    norm_num
  have hc : commissionOf 100000 = 40 := by
    rw [commissionOf, totalAmountOf, COMMISSION_RATE, jsRound_eq]
    norm_num
  have hr : verifyRead (createOrder emptyState "ORD-3" "vendor-1" 1000 "2025-01")
      "ORD-3"
      = VerifyCheck.proceed
        { vendorId := "vendor-1", customerId := none, amount := 1000
          status := "pending", paymentStatus := none, paymentReference := none } := by
    simp [verifyRead, createOrder, upd]
  refine ⟨?_, by rw [hc0]; norm_num, ?_⟩
  · simp only [verifyPayment, hr]
    simp [verifyWrite, createOrder, emptyState, trackCommissionUpd, emptyEarnings,
      hc0, hc]
    norm_num
  · simp only [verifyPayment, hr]
    simp [verifyWrite, createOrder, emptyState, trackCommissionUpd, emptyEarnings,
      hc0, hc]

/-- Claim C3 as amended: for an order created once and then successfully
payment-verified once (paid amount matching the order amount), the platform
earnings `totalEarnings` and the month's `monthlyEarnings` each increase by
exactly twice the commission amount of the order, because `trackCommission`
runs both at order creation and at payment verification. -/
theorem C3_amended_double_commission (st : ServerState) (orderId vendorId : String)
    (amount : ℚ) (reference month : String) :
    (((verifyPayment (createOrder st orderId vendorId amount month) orderId
        (100 * amount) reference month).1.earnings.getD emptyEarnings).totalEarnings
      = (st.earnings.getD emptyEarnings).totalEarnings
        + 2 * (calculateCommission amount : ℚ)) ∧
    (lookupMonth ((verifyPayment (createOrder st orderId vendorId amount month) orderId
        (100 * amount) reference month).1.earnings.getD
        emptyEarnings).monthlyEarnings month
      = lookupMonth (st.earnings.getD emptyEarnings).monthlyEarnings month
        + 2 * (calculateCommission amount : ℚ)) := by
  have hco : commissionOf (100 * amount) = calculateCommission amount := by
    rw [commissionOf, calculateCommission, totalAmountOf]
    congr 1
    ring
  have hr : verifyRead (createOrder st orderId vendorId amount month) orderId
      = VerifyCheck.proceed
        { vendorId := vendorId, customerId := none, amount := amount
          status := "pending", paymentStatus := none, paymentReference := none } := by
    simp [verifyRead, createOrder, upd]
  constructor
  · simp only [verifyPayment, hr]
    simp [verifyWrite, createOrder, trackCommissionUpd, hco]
    ring
  · simp only [verifyPayment, hr]
    simp [verifyWrite, createOrder, trackCommissionUpd, hco, lookupMonth_setMonth]
    ring

/-- Claim C2: the settlement bookkeeping has no idempotency guarantee.  The
double-processing guard is a non-atomic check-then-act: the handler reads the
order and checks `paymentStatus === 'completed'`, and only several awaited
kv-store writes later stores `paymentStatus = 'completed'`.  Two
verifications of the same successful reference can therefore both pass the
guard before either write phase runs; in that interleaving both write phases
execute, and the vendor wallet and the platform earnings receive the credit
and the commission twice for one payment (960 and 40 after one verification,
1920 and 80 after the interleaved pair). -/
theorem C2_double_processing :
    verifyRead stC2 "ORD-2" = VerifyCheck.proceed orderC2 ∧
    ((verifyPayment stC2 "ORD-2" 100000 "PSREF-2" "2025-01").1.wallets
        "vendor-1").map Wallet.walletBalance = some 960 ∧
    ((verifyPayment stC2 "ORD-2" 100000 "PSREF-2" "2025-01").1.earnings.getD
        emptyEarnings).totalEarnings = 40 ∧
    ((verifyWrite (verifyWrite stC2 "ORD-2" orderC2 100000 "PSREF-2" "2025-01")
        "ORD-2" orderC2 100000 "PSREF-2" "2025-01").wallets "vendor-1").map
        Wallet.walletBalance = some 1920 ∧
    ((verifyWrite (verifyWrite stC2 "ORD-2" orderC2 100000 "PSREF-2" "2025-01")
        "ORD-2" orderC2 100000 "PSREF-2" "2025-01").earnings.getD
        emptyEarnings).totalEarnings = 80 := by
  have hc : commissionOf 100000 = 40 := by
    rw [commissionOf, totalAmountOf, COMMISSION_RATE, jsRound_eq]
    norm_num
  have hv : vendorAmountOf 100000 = 960 := by
    rw [vendorAmountOf, totalAmountOf, hc]
    norm_num
  refine ⟨?_, ?_, ?_, ?_, ?_⟩ <;>
    simp [stC2, orderC2, emptyState, verifyRead, verifyPayment, verifyWrite, upd,
      creditWallet, emptyWallet, trackCommissionUpd, emptyEarnings, hc, hv] <;>
    norm_num

end FoodHub
